import Mathlib

/-!
Verification of `src/metaagent.py`, a task handler exposing `on_create`,
`on_receive` and `on_destroy`.  The handler loads a dataset (JSON string or
CSV file path), parses a JSON list of graph edges, and for every
treatment–outcome pair builds a `CausalModel`, identifies and estimates the
causal effect via the external `dowhy` library, collecting per-pair records;
the result dictionary is JSON-serialized under the key `"result"`, and any
exception escaping the body is converted to `{"status": "Error <msg>"}`.

Embedding choices:
* Python values are modelled by the inductive `PyVal`; opaque foreign objects
  (e.g. a pandas `DataFrame`) by the `obj` constructor.
* Python exceptions are modelled by `Except String`, the `String` being
  `str(e)`; `try/except` is explicit propagation via `match`.
* The external library calls (`json.loads`, `json.dumps`,
  `pathlib.Path.exists`, `pd.read_csv`, `nx.DiGraph`, `CausalModel`,
  `identify_effect`, `estimate_effect`) are an abstract environment `Env`;
  the fixed keyword arguments `proceed_when_unidentified=True`,
  `control_value=0`, `treatment_value=1` are absorbed into the oracle.
* `print` writes to stdout only and is never read back, so it is dropped.
* The module defines no module-level mutable bindings, so each call is a
  pure function of its own arguments; call sequences are modelled by
  mapping `runCall` over a trace.
-/

/-- A Python value as it occurs in this script: `None`, booleans, integers,
strings, lists, string-keyed dictionaries, and opaque foreign objects. -/
inductive PyVal where
  | none
  | bool (b : Bool)
  | int (n : Int)
  | str (s : String)
  | list (xs : List PyVal)
  | dict (kvs : List (String × PyVal))
  | obj (tag : String) (id : Nat)

/-- The `"status"` entry of a returned dictionary, when it is a string;
used to discriminate outcomes of the handler. -/
def statusOf (v : PyVal) : Option String :=
  match v with
  | PyVal.dict (("status", PyVal.str s) :: _) => some s
  | _ => Option.none

/-- First-match lookup in an association list, modelling Python dict lookup
(a real Python dict has unique keys, so first-match is exact). -/
def lookupStr : List (String × PyVal) → String → Option PyVal
  | [], _ => Option.none
  | (k, v) :: rest, key => if key = k then some v else lookupStr rest key

/-- `d.get(key, None)` on a Python dict. -/
def pyGet (d : List (String × PyVal)) (key : String) : PyVal :=
  match lookupStr d key with
  | some v => v
  | Option.none => PyVal.none

/-- `v[key]` lookup on a `PyVal` that is a dict, `none` otherwise. -/
def pyDictGet : PyVal → String → Option PyVal
  | .dict kvs, key => lookupStr kvs key
  | _, _ => Option.none

/-- `iter(v)` as a list of elements: lists iterate their elements, strings
their one-character substrings, dicts their keys; `None`, booleans, integers
and opaque objects raise `TypeError`. -/
def pyIter : PyVal → Except String (List PyVal)
  | .list xs => Except.ok xs
  | .str s => Except.ok (s.data.map fun c => PyVal.str (String.singleton c))
  | .dict kvs => Except.ok (kvs.map fun kv => PyVal.str kv.1)
  | .none => Except.error "argument of type NoneType is not iterable"
  | .bool _ => Except.error "argument of type bool is not iterable"
  | .int _ => Except.error "argument of type int is not iterable"
  | .obj tag _ => Except.error ("argument of type " ++ tag ++ " is not iterable")

/-- The two observable attributes of a `dowhy` estimate used by the script:
`causal_estimate.value` and `str(causal_estimate)`. -/
structure EstimateResult where
  value : PyVal
  interp : String

/-- The external world of the script: `json`, `pathlib`, `pandas`,
`networkx` and `dowhy`.  Fallible calls return `Except String`, the string
being the exception message. -/
structure Env where
  Graph : Type
  Model : Type
  Estimand : Type
  jsonLoads : String → Except String PyVal
  jsonDumps : PyVal → Except String String
  pathExists : String → Bool
  readCsv : String → Except String PyVal
  diGraph : PyVal → Except String Graph
  causalModel : PyVal → Graph → PyVal → PyVal → Except String Model
  identifyEffect : Model → Except String Estimand
  estimateEffect : Model → Estimand → PyVal → Except String EstimateResult

/-- `json.loads(v)`: CPython raises `TypeError` before parsing unless the
argument is a string. -/
def jsonLoadsPy (env : Env) : PyVal → Except String PyVal
  | .str s => env.jsonLoads s
  | _ => Except.error "the JSON object must be str, bytes or bytearray"

/-- `pathlib.Path(v)`: raises `TypeError` on a non-string argument. -/
def pathOfPy : PyVal → Except String String
  | .str s => Except.ok s
  | _ => Except.error "argument should be a str or an os.PathLike object"

/-- Lines 39–49 of `on_receive`: try `json.loads` first; on
`JSONDecodeError`/`TypeError` (the only failures `json.loads` produces here)
fall back to reading a CSV from the path if it exists, else raise
`ValueError("Invalid data path or data format.")`; finally raise
`ValueError("No data provided for analysis.")` if the loaded value is `None`. -/
def loadDataset (env : Env) (v : PyVal) : Except String PyVal :=
  match
    (match jsonLoadsPy env v with
     | Except.ok x => Except.ok x
     | Except.error _ =>
       match pathOfPy v with
       | Except.ok p =>
         if env.pathExists p then env.readCsv p
         else Except.error "Invalid data path or data format."
       | Except.error e => Except.error e) with
  | Except.error e => Except.error e
  | Except.ok PyVal.none => Except.error "No data provided for analysis."
  | Except.ok x => Except.ok x

/-- Lines 52–55 of `on_receive`: `json.loads` the graph-edges string when it
is not `None`, else raise `ValueError("No graph edges provided for analysis.")`. -/
def parseGraphEdges (env : Env) : PyVal → Except String PyVal
  | PyVal.none => Except.error "No graph edges provided for analysis."
  | v => jsonLoadsPy env v

/-- The three library calls for one treatment–outcome pair:
`CausalModel(...)`, `identify_effect(proceed_when_unidentified=True)`,
`estimate_effect(..., method_name=method, control_value=0, treatment_value=1)`. -/
def runEstimate (env : Env) (dv : PyVal) (g : env.Graph) (method t o : PyVal) :
    Except String EstimateResult :=
  match env.causalModel dv g t o with
  | Except.error e => Except.error e
  | Except.ok m =>
    match env.identifyEffect m with
    | Except.error e => Except.error e
    | Except.ok est => env.estimateEffect m est method

/-- The record appended to `effect_data` for one pair: on success the
five-key record, on any exception the three-key error record (the `print`
in the handler is a write-only side effect and is dropped). -/
def estimatePair (env : Env) (dv : PyVal) (g : env.Graph) (method t o : PyVal) : PyVal :=
  match runEstimate env dv g method t o with
  | Except.ok ce =>
    PyVal.dict [("treatment", t), ("outcome", o), ("estimate", ce.value),
                ("method", method), ("interpretation", PyVal.str ce.interp)]
  | Except.error e =>
    PyVal.dict [("treatment", t), ("outcome", o), ("error", PyVal.str e)]

/-- The outer `for treatment in analysis_treatments` loop: `acc` is the
`effect_data` accumulated so far; the inner loop re-enters
`iter(analysis_outcomes)` on every outer iteration, outside the per-pair
`try`, so its failure propagates. -/
def pairLoopAux (env : Env) (dv : PyVal) (g : env.Graph) (method os : PyVal) :
    List PyVal → List PyVal → Except String (List PyVal)
  | acc, [] => Except.ok acc
  | acc, t :: ts =>
    match pyIter os with
    | Except.error e => Except.error e
    | Except.ok ol =>
      pairLoopAux env dv g method os
        (acc ++ ol.map fun o => estimatePair env dv g method t o) ts

/-- Lines 61–100 of `on_receive`: the nested loop over all
treatment–outcome pairs, starting from an empty `effect_data`. -/
def runPairsLoop (env : Env) (dv : PyVal) (g : env.Graph) (method ts os : PyVal) :
    Except String (List PyVal) :=
  match pyIter ts with
  | Except.error e => Except.error e
  | Except.ok tl => pairLoopAux env dv g method os [] tl

/-- The body of `on_receive`'s outer `try` up to building the `result`
dictionary (lines 32–108): extract the five inputs, load the dataset, parse
the graph edges, build the `nx.DiGraph`, run the pair loop, and compile the
four-key result dictionary. -/
def onReceiveBody (env : Env) (d : List (String × PyVal)) : Except String PyVal :=
  match loadDataset env (pyGet d "dataset") with
  | Except.error e => Except.error e
  | Except.ok dataV =>
    match parseGraphEdges env (pyGet d "graph_edges") with
    | Except.error e => Except.error e
    | Except.ok graphEdges =>
      match env.diGraph graphEdges with
      | Except.error e => Except.error e
      | Except.ok g =>
        match runPairsLoop env dataV g (pyGet d "method")
                (pyGet d "treatment") (pyGet d "outcome") with
        | Except.error e => Except.error e
        | Except.ok effects =>
          Except.ok (PyVal.dict
            [("causal_effects", PyVal.list effects),
             ("graph_edges", graphEdges),
             ("treatments", pyGet d "treatment"),
             ("outcomes", pyGet d "outcome")])

/-- The whole `try` body of `on_receive`, including the final
`return {"result": json.dumps(result)}` (line 110): `json.dumps` can raise
(e.g. `TypeError` on a non-serializable estimate value), still inside the
outer `try`. -/
def onReceiveExc (env : Env) (d : List (String × PyVal)) : Except String PyVal :=
  match onReceiveBody env d with
  | Except.error e => Except.error e
  | Except.ok r =>
    match env.jsonDumps r with
    | Except.error e => Except.error e
    | Except.ok s => Except.ok (PyVal.dict [("result", PyVal.str s)])

/-- `on_receive` (lines 21–112): the outer `except Exception as e` converts
any escaping exception into `{"status": f"Error {e}"}`. -/
def on_receive (env : Env) (d : List (String × PyVal)) : PyVal :=
  match onReceiveExc env d with
  | Except.ok v => v
  | Except.error e => PyVal.dict [("status", PyVal.str ("Error " ++ e))]

/-- The `try` body of `on_create` (lines 15–16): returning a literal
dictionary cannot raise. -/
def onCreateBody (_d : List (String × PyVal)) : Except String PyVal :=
  Except.ok (PyVal.dict [("status", PyVal.str "initialized")])

/-- `on_create` (lines 8–18) with its `except` branch. -/
def on_create (d : List (String × PyVal)) : PyVal :=
  match onCreateBody d with
  | Except.ok v => v
  | Except.error e => PyVal.dict [("status", PyVal.str ("Error " ++ e))]

/-- `on_destroy` (lines 115–122): takes no arguments, returns a literal. -/
def on_destroy : PyVal :=
  PyVal.dict [("status", PyVal.str "destroyed")]

/-- One call to the module's surface, for reasoning about interleavings. -/
inductive Call where
  | create (d : List (String × PyVal))
  | receive (d : List (String × PyVal))
  | destroy

/-- Dispatch one call. -/
def runCall (env : Env) : Call → PyVal
  | Call.create d => on_create d
  | Call.receive d => on_receive env d
  | Call.destroy => on_destroy

/-- A sequence of calls against the module: since the module keeps no
mutable state, a trace is just the per-call results in order. -/
def runTrace (env : Env) (cs : List Call) : List PyVal :=
  cs.map (runCall env)

/-- The nested-loop order of pair records: for each `t` in `T` in order,
each `o` in `O` in order. -/
def pairsOf (T O : List PyVal) (f : PyVal → PyVal → PyVal) : List PyVal :=
  match T with
  | [] => []
  | t :: ts => O.map (f t) ++ pairsOf ts O f

/-- The `causal_effects` list of a successful `on_receive` body, when there
is one. -/
def effectsOf (env : Env) (d : List (String × PyVal)) : Option (List PyVal) :=
  match onReceiveBody env d with
  | Except.ok (PyVal.dict (("causal_effects", PyVal.list ce) :: _)) => some ce
  | _ => Option.none

/-- A concrete environment in which every library call succeeds:
`json.loads` yields `null` on `"null"`, fails on `"bad"`, and yields `[]`
on anything else; no path exists; estimation always succeeds. -/
def envA : Env where
  Graph := Unit
  Model := Unit
  Estimand := Unit
  jsonLoads := fun s =>
    if s = "null" then Except.ok PyVal.none
    else if s = "bad" then Except.error "Expecting value: line 1 column 1 (char 0)"
    else Except.ok (PyVal.list [])
  jsonDumps := fun _ => Except.ok "SERIAL"
  pathExists := fun _ => false
  readCsv := fun _ => Except.ok (PyVal.obj "DataFrame" 0)
  diGraph := fun _ => Except.ok ()
  causalModel := fun _ _ _ _ => Except.ok ()
  identifyEffect := fun _ => Except.ok ()
  estimateEffect := fun _ _ _ => Except.ok ⟨PyVal.int 1, "est"⟩

/-- `envA` with a `CausalModel` constructor that always raises. -/
def envB : Env where
  Graph := Unit
  Model := Unit
  Estimand := Unit
  jsonLoads := envA.jsonLoads
  jsonDumps := envA.jsonDumps
  pathExists := envA.pathExists
  readCsv := envA.readCsv
  diGraph := envA.diGraph
  causalModel := fun _ _ _ _ => Except.error "boom"
  identifyEffect := fun _ => Except.ok ()
  estimateEffect := fun _ _ _ => Except.ok ⟨PyVal.int 1, "est"⟩

/-- A concrete well-formed task input: dataset and graph-edges strings,
method name, one treatment and one outcome. -/
def dOk : List (String × PyVal) :=
  [("dataset", PyVal.str "ds"), ("graph_edges", PyVal.str "ge"),
   ("method", PyVal.str "backdoor.linear_regression"),
   ("treatment", PyVal.list [PyVal.str "t1"]),
   ("outcome", PyVal.list [PyVal.str "o1"])]

theorem pairsOf_length (f : PyVal → PyVal → PyVal) :
    ∀ T O : List PyVal, (pairsOf T O f).length = T.length * O.length := by
  intro T O
  induction T with
  | nil => simp [pairsOf]
  | cons t ts ih =>
    simp only [pairsOf, List.length_append, List.length_map, List.length_cons, ih]
    rw [Nat.succ_mul]
    omega

theorem pairsOf_getElem? (f : PyVal → PyVal → PyVal) :
    ∀ (T : List PyVal) (O : List PyVal) (i j : Nat) (hi : i < T.length)
      (_hj : j < O.length),
      (pairsOf T O f)[i * O.length + j]? = some (f (T.get ⟨i, hi⟩) (O.get ⟨j, _hj⟩)) := by
  intro T
  induction T with
  | nil => intro O i j hi hj; exact absurd hi (Nat.not_lt_zero i)
  | cons t ts ih =>
    intro O i j hi hj
    cases i with
    | zero =>
      have hj' : 0 * O.length + j < (O.map (f t)).length := by
        simp [List.length_map]; omega
      rw [show pairsOf (t :: ts) O f = O.map (f t) ++ pairsOf ts O f from rfl]
      rw [List.getElem?_append_left hj']
      simp [List.getElem?_map, Nat.zero_mul, List.getElem?_eq_getElem hj]
    | succ i =>
      have hlen : (O.map (f t)).length ≤ (i + 1) * O.length + j := by
        simp [List.length_map, Nat.succ_mul]; omega
      rw [show pairsOf (t :: ts) O f = O.map (f t) ++ pairsOf ts O f from rfl]
      rw [List.getElem?_append_right hlen]
      have harith : (i + 1) * O.length + j - (O.map (f t)).length = i * O.length + j := by
        simp [List.length_map, Nat.succ_mul]; omega
      rw [harith]
      exact ih O i j (Nat.lt_of_succ_lt_succ hi) hj

theorem pairLoopAux_list (env : Env) (dv : PyVal) (g : env.Graph) (m : PyVal)
    (O : List PyVal) :
    ∀ (T acc : List PyVal),
      pairLoopAux env dv g m (PyVal.list O) acc T =
        Except.ok (acc ++ pairsOf T O (estimatePair env dv g m)) := by
  intro T
  induction T with
  | nil => intro acc; simp [pairLoopAux, pairsOf]
  | cons t ts ih =>
    intro acc
    show pairLoopAux env dv g m (PyVal.list O)
        (acc ++ O.map fun o => estimatePair env dv g m t o) ts = _
    rw [ih]
    simp [pairsOf, List.append_assoc]

theorem runPairsLoop_lists (env : Env) (dv : PyVal) (g : env.Graph) (m : PyVal)
    (T O : List PyVal) :
    runPairsLoop env dv g m (PyVal.list T) (PyVal.list O) =
      Except.ok (pairsOf T O (estimatePair env dv g m)) := by
  show pairLoopAux env dv g m (PyVal.list O) [] T = _
  rw [pairLoopAux_list]
  simp

theorem pairLoopAux_mem (env : Env) (dv : PyVal) (g : env.Graph) (m os : PyVal) :
    ∀ (T acc l : List PyVal),
      pairLoopAux env dv g m os acc T = Except.ok l →
      ∀ e ∈ l, e ∈ acc ∨ ∃ t o, e = estimatePair env dv g m t o := by
  intro T
  induction T with
  | nil =>
    intro acc l h e he
    cases h
    exact Or.inl he
  | cons t ts ih =>
    intro acc l h e he
    revert h
    show (match pyIter os with
          | Except.error er => Except.error er
          | Except.ok ol =>
            pairLoopAux env dv g m os
              (acc ++ ol.map fun o => estimatePair env dv g m t o) ts) = Except.ok l → _
    cases pyIter os with
    | error er => intro h; cases h
    | ok ol =>
      intro h
      rcases ih _ l h e he with hin | hpair
      · rcases List.mem_append.mp hin with ha | hm
        · exact Or.inl ha
        · rcases List.mem_map.mp hm with ⟨o, _, ho⟩
          exact Or.inr ⟨t, o, ho.symm⟩
      · exact Or.inr hpair

theorem runPairsLoop_mem (env : Env) (dv : PyVal) (g : env.Graph) (m ts os : PyVal)
    (l : List PyVal) (h : runPairsLoop env dv g m ts os = Except.ok l) :
    ∀ e ∈ l, ∃ t o, e = estimatePair env dv g m t o := by
  intro e he
  revert h
  show (match pyIter ts with
        | Except.error er => Except.error er
        | Except.ok tl => pairLoopAux env dv g m os [] tl) = Except.ok l → _
  cases pyIter ts with
  | error er => intro h; cases h
  | ok tl =>
    intro h
    rcases pairLoopAux_mem env dv g m os tl [] l h e he with ha | hpair
    · cases ha
    · exact hpair

theorem estimatePair_keys (env : Env) (dv : PyVal) (g : env.Graph) (m t o : PyVal) :
    pyDictGet (estimatePair env dv g m t o) "treatment" = some t ∧
    pyDictGet (estimatePair env dv g m t o) "outcome" = some o := by
  unfold estimatePair
  cases runEstimate env dv g m t o with
  | ok ce => simp [pyDictGet, lookupStr]
  | error e => simp [pyDictGet, lookupStr]

theorem estimatePair_shape (env : Env) (dv : PyVal) (g : env.Graph) (m t o : PyVal) :
    (∃ v interp, estimatePair env dv g m t o =
      PyVal.dict [("treatment", t), ("outcome", o), ("estimate", v),
                  ("method", m), ("interpretation", PyVal.str interp)]) ∨
    (∃ msg, estimatePair env dv g m t o =
      PyVal.dict [("treatment", t), ("outcome", o), ("error", PyVal.str msg)]) := by
  unfold estimatePair
  cases runEstimate env dv g m t o with
  | ok ce => exact Or.inl ⟨ce.value, ce.interp, rfl⟩
  | error e => exact Or.inr ⟨e, rfl⟩

theorem onReceiveExc_ok_shape (env : Env) (d : List (String × PyVal)) (v : PyVal)
    (h : onReceiveExc env d = Except.ok v) :
    ∃ r s, onReceiveBody env d = Except.ok r ∧ env.jsonDumps r = Except.ok s ∧
      v = PyVal.dict [("result", PyVal.str s)] := by
  unfold onReceiveExc at h
  split at h
  · cases h
  · rename_i r heq
    split at h
    · cases h
    · rename_i s heq2
      cases h
      exact ⟨r, s, heq, heq2, rfl⟩

theorem onReceive_result_inv (env : Env) (d : List (String × PyVal)) (s : String)
    (hs : on_receive env d = PyVal.dict [("result", PyVal.str s)]) :
    ∃ r, onReceiveBody env d = Except.ok r ∧ env.jsonDumps r = Except.ok s := by
  revert hs
  unfold on_receive
  cases he : onReceiveExc env d with
  | error e =>
    intro hs
    have := congrArg statusOf hs
    simp [statusOf] at this
  | ok v =>
    intro hs
    obtain ⟨r, s', hb, hd, hv⟩ := onReceiveExc_ok_shape env d v he
    subst hv
    have hss : s' = s := by
      injection hs with h1
      injection h1 with h2 _
      injection h2 with _ h3
      injection h3
    subst hss
    exact ⟨r, hb, hd⟩

theorem onReceiveBody_ok_inv (env : Env) (d : List (String × PyVal)) (r : PyVal)
    (h : onReceiveBody env d = Except.ok r) :
    ∃ dv ge g effects,
      loadDataset env (pyGet d "dataset") = Except.ok dv ∧
      parseGraphEdges env (pyGet d "graph_edges") = Except.ok ge ∧
      env.diGraph ge = Except.ok g ∧
      runPairsLoop env dv g (pyGet d "method") (pyGet d "treatment")
        (pyGet d "outcome") = Except.ok effects ∧
      r = PyVal.dict [("causal_effects", PyVal.list effects), ("graph_edges", ge),
                      ("treatments", pyGet d "treatment"),
                      ("outcomes", pyGet d "outcome")] := by
  unfold onReceiveBody at h
  split at h
  · cases h
  · rename_i dv hld
    split at h
    · cases h
    · rename_i ge hpe
      split at h
      · cases h
      · rename_i g hdg
        split at h
        · cases h
        · rename_i effects hlp
          cases h
          exact ⟨dv, ge, g, effects, hld, hpe, hdg, hlp, rfl⟩

theorem loadDataset_none (env : Env) :
    loadDataset env PyVal.none =
      Except.error "argument should be a str or an os.PathLike object" := rfl

theorem loadDataset_badString (env : Env) (s e : String)
    (hjl : env.jsonLoads s = Except.error e) (hpx : env.pathExists s = false) :
    loadDataset env (PyVal.str s) =
      Except.error "Invalid data path or data format." := by
  unfold loadDataset
  rw [show jsonLoadsPy env (PyVal.str s) = env.jsonLoads s from rfl, hjl]
  show (match (if env.pathExists s = true then env.readCsv s
               else Except.error "Invalid data path or data format.") with
        | Except.error e2 => Except.error e2
        | Except.ok PyVal.none => Except.error "No data provided for analysis."
        | Except.ok x => Except.ok x) = _
  rw [hpx]
  rfl

theorem loadDataset_nullString (env : Env) (s : String)
    (hjl : env.jsonLoads s = Except.ok PyVal.none) :
    loadDataset env (PyVal.str s) =
      Except.error "No data provided for analysis." := by
  unfold loadDataset
  rw [show jsonLoadsPy env (PyVal.str s) = env.jsonLoads s from rfl, hjl]

theorem onReceiveBody_loadError (env : Env) (d : List (String × PyVal)) (e : String)
    (hld : loadDataset env (pyGet d "dataset") = Except.error e) :
    onReceiveBody env d = Except.error e := by
  unfold onReceiveBody
  rw [hld]

theorem onReceive_of_bodyError (env : Env) (d : List (String × PyVal)) (e : String)
    (hb : onReceiveBody env d = Except.error e) :
    on_receive env d = PyVal.dict [("status", PyVal.str ("Error " ++ e))] := by
  unfold on_receive onReceiveExc
  rw [hb]

theorem parseGraphEdges_ok_inv (env : Env) (v ge : PyVal)
    (h : parseGraphEdges env v = Except.ok ge) :
    ∃ gs, v = PyVal.str gs ∧ env.jsonLoads gs = Except.ok ge := by
  cases v with
  | str gs => exact ⟨gs, rfl, h⟩
  | none => cases h
  | bool b => cases h
  | int n => cases h
  | list xs => cases h
  | dict kvs => cases h
  | obj tag i => cases h

/-- C3: for every environment and input dictionary, `on_receive` never
raises (it is a total function) and returns exactly one of two shapes: on
success `{"result": s}` with `s` a string, otherwise `{"status": m}` with
`m` beginning with `"Error "` followed by the exception message; the
returned dictionary never contains both keys. -/
theorem onReceive_total_two_shapes (env : Env) (d : List (String × PyVal)) :
    ((∃ s, on_receive env d = PyVal.dict [("result", PyVal.str s)]) ∨
     (∃ m, on_receive env d = PyVal.dict [("status", PyVal.str ("Error " ++ m))])) ∧
    (pyDictGet (on_receive env d) "result" = Option.none ∨
     pyDictGet (on_receive env d) "status" = Option.none) := by
  cases he : onReceiveExc env d with
  | error e =>
    have hr : on_receive env d = PyVal.dict [("status", PyVal.str ("Error " ++ e))] := by
      unfold on_receive
      rw [he]
    rw [hr]
    exact ⟨Or.inr ⟨e, rfl⟩, Or.inl (by simp [pyDictGet, lookupStr])⟩
  | ok v =>
    obtain ⟨r, s, _hb, _hd, hv⟩ := onReceiveExc_ok_shape env d v he
    have hr : on_receive env d = v := by
      unfold on_receive
      rw [he]
    rw [hr, hv]
    exact ⟨Or.inl ⟨s, rfl⟩, Or.inr (by simp [pyDictGet, lookupStr])⟩

/-- C5: for every input dictionary, `on_create` returns exactly
`{"status": "initialized"}`; its `try` body always succeeds, so the
`except` branch returning an `"Error"` status is never taken. -/
theorem onCreate_always_initialized (d : List (String × PyVal)) :
    on_create d = PyVal.dict [("status", PyVal.str "initialized")] ∧
    onCreateBody d = Except.ok (PyVal.dict [("status", PyVal.str "initialized")]) :=
  ⟨rfl, rfl⟩

/-- C6: `on_destroy` takes no arguments (it is modelled as a constant) and
always returns exactly `{"status": "destroyed"}`. -/
theorem onDestroy_destroyed :
    on_destroy = PyVal.dict [("status", PyVal.str "destroyed")] := rfl

/-- C7: the module keeps no module-level mutable state, so in any
interleaving of the three calls each result depends only on that call's own
argument — the i-th output of a trace is a function of the i-th call alone —
and `on_create`/`on_destroy` return their fixed status dictionaries
regardless of input and of any previous calls. -/
theorem moduleCalls_stateless (env : Env) (cs : List Call) (i : Nat)
    (d : List (String × PyVal)) :
    (runTrace env cs)[i]? = (cs[i]?).map (runCall env) ∧
    runCall env (Call.create d) = PyVal.dict [("status", PyVal.str "initialized")] ∧
    runCall env Call.destroy = PyVal.dict [("status", PyVal.str "destroyed")] := by
  refine ⟨?_, rfl, rfl⟩
  simp [runTrace]

/-- C8: a `'dataset'` value that is absent or `None` yields an error status
(a `TypeError` from `pathlib.Path(None)` caught by the outer handler); a
string that is neither valid JSON (`json.loads` fails) nor an existing path
yields the status `"Error Invalid data path or data format."`; and a string
whose JSON value is `null` yields `"Error No data provided for analysis."`. -/
theorem onReceive_dataset_error_cases (env : Env) (d : List (String × PyVal)) (s : String) :
    (pyGet d "dataset" = PyVal.none →
      ∃ m, on_receive env d = PyVal.dict [("status", PyVal.str ("Error " ++ m))]) ∧
    (pyGet d "dataset" = PyVal.str s → (∃ e, env.jsonLoads s = Except.error e) →
      env.pathExists s = false →
      on_receive env d = PyVal.dict
        [("status", PyVal.str "Error Invalid data path or data format.")]) ∧
    (pyGet d "dataset" = PyVal.str s → env.jsonLoads s = Except.ok PyVal.none →
      on_receive env d = PyVal.dict
        [("status", PyVal.str "Error No data provided for analysis.")]) := by
  refine ⟨?_, ?_, ?_⟩
  · intro hds
    refine ⟨"argument should be a str or an os.PathLike object", ?_⟩
    exact onReceive_of_bodyError env d _
      (onReceiveBody_loadError env d _ (by rw [hds]; exact loadDataset_none env))
  · intro hds he hpx
    obtain ⟨e, hjl⟩ := he
    exact onReceive_of_bodyError env d _
      (onReceiveBody_loadError env d _
        (by rw [hds]; exact loadDataset_badString env s e hjl hpx))
  · intro hds hjl
    exact onReceive_of_bodyError env d _
      (onReceiveBody_loadError env d _
        (by rw [hds]; exact loadDataset_nullString env s hjl))

/-- C8 witness: in the concrete environment `envA`, a missing dataset, the
invalid string `"bad"` (not JSON, not an existing path), and the string
`"null"` produce exactly the three error statuses. -/
theorem onReceive_dataset_error_cases_applied :
    (∃ m, on_receive envA [] = PyVal.dict [("status", PyVal.str ("Error " ++ m))]) ∧
    on_receive envA [("dataset", PyVal.str "bad")] = PyVal.dict
      [("status", PyVal.str "Error Invalid data path or data format.")] ∧
    on_receive envA [("dataset", PyVal.str "null")] = PyVal.dict
      [("status", PyVal.str "Error No data provided for analysis.")] :=
  ⟨(onReceive_dataset_error_cases envA [] "").1 rfl,
   (onReceive_dataset_error_cases envA [("dataset", PyVal.str "bad")] "bad").2.1 rfl
     ⟨"Expecting value: line 1 column 1 (char 0)", rfl⟩ rfl,
   (onReceive_dataset_error_cases envA [("dataset", PyVal.str "null")] "null").2.2 rfl rfl⟩

/-- C9 counterexample: the claim says a missing `'graph_edges'` key always
yields the status `"Error No graph edges provided for analysis."` regardless
of whether the dataset was loaded successfully; but with the dataset string
`"bad"` (whose loading fails first) and no `'graph_edges'` key, `on_receive`
returns the dataset error status instead. -/
theorem onReceive_missing_graph_edges_cex :
    pyGet [("dataset", PyVal.str "bad")] "graph_edges" = PyVal.none ∧
    statusOf (on_receive envA [("dataset", PyVal.str "bad")]) =
      some "Error Invalid data path or data format." ∧
    on_receive envA [("dataset", PyVal.str "bad")] ≠
      PyVal.dict [("status", PyVal.str "Error No graph edges provided for analysis.")] :=
  ⟨rfl, rfl, fun h => absurd (congrArg statusOf h) (by decide)⟩

/-- C9 (amended): if the dataset loads successfully and the input has no
`'graph_edges'` key (or its value is `None`), `on_receive` returns exactly
`{"status": "Error No graph edges provided for analysis."}` and no partial
result. -/
theorem onReceive_missing_graph_edges (env : Env) (d : List (String × PyVal))
    (dv : PyVal)
    (hld : loadDataset env (pyGet d "dataset") = Except.ok dv)
    (hge : pyGet d "graph_edges" = PyVal.none) :
    on_receive env d = PyVal.dict
      [("status", PyVal.str "Error No graph edges provided for analysis.")] := by
  have hbody : onReceiveBody env d =
      Except.error "No graph edges provided for analysis." := by
    unfold onReceiveBody
    rw [hld, hge]
    rfl
  exact onReceive_of_bodyError env d _ hbody

/-- C9 witness: with a dataset string that parses as JSON and no
`'graph_edges'` key, `on_receive` returns the no-graph-edges status. -/
theorem onReceive_missing_graph_edges_applied :
    on_receive envA [("dataset", PyVal.str "ds")] = PyVal.dict
      [("status", PyVal.str "Error No graph edges provided for analysis.")] :=
  onReceive_missing_graph_edges envA [("dataset", PyVal.str "ds")]
    (PyVal.list []) rfl rfl

/-- C1: when the input's `'treatment'` value is a list `T` and its
`'outcome'` value is a list `O` and `on_receive` succeeds, the result's
`causal_effects` list is exactly the nested-loop pairing of `T` and `O`
(for each treatment in order, each outcome in order), with
`T.length * O.length` entries, the entry at nested-loop position
`i * O.length + j` recording treatment `T[i]` and outcome `O[j]`. -/
theorem onReceive_causal_effects_all_pairs (env : Env) (d : List (String × PyVal))
    (T O : List PyVal) (s : String)
    (hT : pyGet d "treatment" = PyVal.list T)
    (hO : pyGet d "outcome" = PyVal.list O)
    (hs : on_receive env d = PyVal.dict [("result", PyVal.str s)]) :
    ∃ (dv : PyVal) (g : env.Graph) (ce : List PyVal),
      effectsOf env d = some ce ∧
      ce = pairsOf T O (estimatePair env dv g (pyGet d "method")) ∧
      ce.length = T.length * O.length ∧
      ∀ (i j : Nat) (hi : i < T.length) (hj : j < O.length),
        ∃ entry, ce[i * O.length + j]? = some entry ∧
          pyDictGet entry "treatment" = some (T.get ⟨i, hi⟩) ∧
          pyDictGet entry "outcome" = some (O.get ⟨j, hj⟩) := by
  obtain ⟨r, hb, _hd⟩ := onReceive_result_inv env d s hs
  obtain ⟨dv, ge, g, effects, _hld, _hpe, _hdg, hlp, hr⟩ := onReceiveBody_ok_inv env d r hb
  subst hr
  rw [hT, hO, runPairsLoop_lists] at hlp
  have heff : effects = pairsOf T O (estimatePair env dv g (pyGet d "method")) := by
    cases hlp
    rfl
  refine ⟨dv, g, effects, ?_, heff, ?_, ?_⟩
  · unfold effectsOf
    rw [hb]
    rfl
  · rw [heff]
    exact pairsOf_length _ T O
  · intro i j hi hj
    refine ⟨estimatePair env dv g (pyGet d "method") (T.get ⟨i, hi⟩) (O.get ⟨j, hj⟩),
      ?_, (estimatePair_keys env dv g (pyGet d "method") _ _).1,
      (estimatePair_keys env dv g (pyGet d "method") _ _).2⟩
    rw [heff]
    exact pairsOf_getElem? _ T O i j hi hj

/-- C1 witness: with the concrete environment `envA` and the task input
`dOk` (one treatment, one outcome), `on_receive` succeeds and the single
`causal_effects` entry records the pair. -/
theorem onReceive_causal_effects_all_pairs_applied :
    on_receive envA dOk = PyVal.dict [("result", PyVal.str "SERIAL")] ∧
    ∃ (dv : PyVal) (g : envA.Graph) (ce : List PyVal),
      effectsOf envA dOk = some ce ∧
      ce = pairsOf [PyVal.str "t1"] [PyVal.str "o1"]
        (estimatePair envA dv g (pyGet dOk "method")) ∧
      ce.length = 1 * 1 ∧
      ∀ (i j : Nat) (hi : i < ([PyVal.str "t1"] : List PyVal).length)
        (hj : j < ([PyVal.str "o1"] : List PyVal).length),
        ∃ entry, ce[i * 1 + j]? = some entry ∧
          pyDictGet entry "treatment" = some (([PyVal.str "t1"] : List PyVal).get ⟨i, hi⟩) ∧
          pyDictGet entry "outcome" = some (([PyVal.str "o1"] : List PyVal).get ⟨j, hj⟩) :=
  ⟨rfl, onReceive_causal_effects_all_pairs envA dOk
    [PyVal.str "t1"] [PyVal.str "o1"] "SERIAL" rfl rfl rfl⟩

/-- C2: if estimation for one treatment–outcome pair fails with message
`err` (the combined `CausalModel`/`identify_effect`/`estimate_effect` call
raises), the record appended for that pair is exactly
`{"treatment": t, "outcome": o, "error": err}`, every remaining pair is
still processed (the list keeps its full `T.length * O.length` length), and
the call still returns the `"result"` dictionary (here assuming
`json.dumps` succeeds, as it is outside the per-pair handler). -/
theorem onReceive_pair_failure_recorded (env : Env) (d : List (String × PyVal))
    (T O : List PyVal) (dv ge : PyVal) (g : env.Graph) (i j : Nat) (err : String)
    (hT : pyGet d "treatment" = PyVal.list T)
    (hO : pyGet d "outcome" = PyVal.list O)
    (hld : loadDataset env (pyGet d "dataset") = Except.ok dv)
    (hpe : parseGraphEdges env (pyGet d "graph_edges") = Except.ok ge)
    (hdg : env.diGraph ge = Except.ok g)
    (hdump : ∀ v, ∃ s, env.jsonDumps v = Except.ok s)
    (hi : i < T.length) (hj : j < O.length)
    (hfail : runEstimate env dv g (pyGet d "method")
      (T.get ⟨i, hi⟩) (O.get ⟨j, hj⟩) = Except.error err) :
    ∃ s ce,
      on_receive env d = PyVal.dict [("result", PyVal.str s)] ∧
      effectsOf env d = some ce ∧
      ce.length = T.length * O.length ∧
      ce[i * O.length + j]? = some (PyVal.dict
        [("treatment", T.get ⟨i, hi⟩), ("outcome", O.get ⟨j, hj⟩),
         ("error", PyVal.str err)]) := by
  have hbody : onReceiveBody env d = Except.ok (PyVal.dict
      [("causal_effects", PyVal.list (pairsOf T O (estimatePair env dv g (pyGet d "method")))),
       ("graph_edges", ge), ("treatments", PyVal.list T), ("outcomes", PyVal.list O)]) := by
    simp only [onReceiveBody, hld, hpe, hdg, hT, hO, runPairsLoop_lists]
  obtain ⟨s, hdmp⟩ := hdump (PyVal.dict
      [("causal_effects", PyVal.list (pairsOf T O (estimatePair env dv g (pyGet d "method")))),
       ("graph_edges", ge), ("treatments", PyVal.list T), ("outcomes", PyVal.list O)])
  refine ⟨s, pairsOf T O (estimatePair env dv g (pyGet d "method")), ?_, ?_, ?_, ?_⟩
  · simp only [on_receive, onReceiveExc, hbody, hdmp]
  · unfold effectsOf
    rw [hbody]
    rfl
  · exact pairsOf_length _ T O
  · rw [pairsOf_getElem? _ T O i j hi hj]
    unfold estimatePair
    rw [hfail]

/-- C2 witness: in `envB` the `CausalModel` constructor always raises
`"boom"`; with input `dOk` the single pair is recorded as an error record
and the call still returns a `"result"` dictionary. -/
theorem onReceive_pair_failure_recorded_applied :
    ∃ s ce,
      on_receive envB dOk = PyVal.dict [("result", PyVal.str s)] ∧
      effectsOf envB dOk = some ce ∧
      ce.length = 1 * 1 ∧
      ce[0]? = some (PyVal.dict
        [("treatment", PyVal.str "t1"), ("outcome", PyVal.str "o1"),
         ("error", PyVal.str "boom")]) :=
  onReceive_pair_failure_recorded envB dOk [PyVal.str "t1"] [PyVal.str "o1"]
    (PyVal.list []) (PyVal.list []) () 0 0 "boom" rfl rfl rfl rfl rfl
    (fun _v => ⟨"SERIAL", rfl⟩) (by decide) (by decide) rfl

/-- C4: on success the value under `"result"` is the JSON serialization of
a dictionary with exactly the keys `causal_effects`, `graph_edges`,
`treatments` and `outcomes`, where `graph_edges` is the JSON-parsed value
of the input's `'graph_edges'` string and `treatments`/`outcomes` are the
input's `'treatment'`/`'outcome'` values unchanged. -/
theorem onReceive_result_serialized_shape (env : Env) (d : List (String × PyVal))
    (s : String)
    (hs : on_receive env d = PyVal.dict [("result", PyVal.str s)]) :
    ∃ gs ge ce,
      pyGet d "graph_edges" = PyVal.str gs ∧
      env.jsonLoads gs = Except.ok ge ∧
      onReceiveBody env d = Except.ok (PyVal.dict
        [("causal_effects", PyVal.list ce), ("graph_edges", ge),
         ("treatments", pyGet d "treatment"), ("outcomes", pyGet d "outcome")]) ∧
      env.jsonDumps (PyVal.dict
        [("causal_effects", PyVal.list ce), ("graph_edges", ge),
         ("treatments", pyGet d "treatment"), ("outcomes", pyGet d "outcome")]) =
        Except.ok s := by
  obtain ⟨r, hb, hd⟩ := onReceive_result_inv env d s hs
  obtain ⟨dv, ge, g, effects, _hld, hpe, _hdg, _hlp, hr⟩ := onReceiveBody_ok_inv env d r hb
  obtain ⟨gs, hgs, hjl⟩ := parseGraphEdges_ok_inv env _ ge hpe
  subst hr
  exact ⟨gs, ge, effects, hgs, hjl, hb, hd⟩

/-- C4 witness: with `envA` and `dOk` the serialized result dictionary has
exactly the four keys, echoing the parsed graph edges and the unchanged
treatment and outcome lists. -/
theorem onReceive_result_serialized_shape_applied :
    on_receive envA dOk = PyVal.dict [("result", PyVal.str "SERIAL")] ∧
    ∃ gs ge ce,
      pyGet dOk "graph_edges" = PyVal.str gs ∧
      envA.jsonLoads gs = Except.ok ge ∧
      onReceiveBody envA dOk = Except.ok (PyVal.dict
        [("causal_effects", PyVal.list ce), ("graph_edges", ge),
         ("treatments", pyGet dOk "treatment"), ("outcomes", pyGet dOk "outcome")]) ∧
      envA.jsonDumps (PyVal.dict
        [("causal_effects", PyVal.list ce), ("graph_edges", ge),
         ("treatments", pyGet dOk "treatment"), ("outcomes", pyGet dOk "outcome")]) =
        Except.ok "SERIAL" :=
  ⟨rfl, onReceive_result_serialized_shape envA dOk "SERIAL" rfl⟩

/-- C10: every entry of the `causal_effects` list of a successful call is a
dictionary with the keys `treatment` and `outcome` followed either by
exactly `estimate`, `method` and `interpretation` (a successful pair) or by
exactly `error` (a failed pair), never a mixture. -/
theorem onReceive_effect_entries_two_shapes (env : Env) (d : List (String × PyVal))
    (s : String)
    (hs : on_receive env d = PyVal.dict [("result", PyVal.str s)]) :
    ∃ ce, effectsOf env d = some ce ∧
      ∀ e ∈ ce,
        (∃ t o v m interp, e = PyVal.dict
          [("treatment", t), ("outcome", o), ("estimate", v),
           ("method", m), ("interpretation", PyVal.str interp)]) ∨
        (∃ t o msg, e = PyVal.dict
          [("treatment", t), ("outcome", o), ("error", PyVal.str msg)]) := by
  obtain ⟨r, hb, _hd⟩ := onReceive_result_inv env d s hs
  obtain ⟨dv, ge, g, effects, _hld, _hpe, _hdg, hlp, hr⟩ := onReceiveBody_ok_inv env d r hb
  subst hr
  refine ⟨effects, ?_, ?_⟩
  · unfold effectsOf
    rw [hb]
    rfl
  · intro e he
    obtain ⟨t, o, heq⟩ := runPairsLoop_mem env dv g _ _ _ effects hlp e he
    subst heq
    rcases estimatePair_shape env dv g (pyGet d "method") t o with ⟨v, interp, hsh⟩ | ⟨msg, hsh⟩
    · exact Or.inl ⟨t, o, v, pyGet d "method", interp, hsh⟩
    · exact Or.inr ⟨t, o, msg, hsh⟩

/-- C10 witness: with `envB` (estimation always failing) and input `dOk`,
`on_receive` succeeds and every `causal_effects` entry has one of the two
record shapes. -/
theorem onReceive_effect_entries_two_shapes_applied :
    on_receive envB dOk = PyVal.dict [("result", PyVal.str "SERIAL")] ∧
    ∃ ce, effectsOf envB dOk = some ce ∧
      ∀ e ∈ ce,
        (∃ t o v m interp, e = PyVal.dict
          [("treatment", t), ("outcome", o), ("estimate", v),
           ("method", m), ("interpretation", PyVal.str interp)]) ∨
        (∃ t o msg, e = PyVal.dict
          [("treatment", t), ("outcome", o), ("error", PyVal.str msg)]) :=
  ⟨rfl, onReceive_effect_entries_two_shapes envB dOk "SERIAL" rfl⟩
